import Mathlib

/-!
Shallow embedding of the cpp-qt-banking-system domain classes
(BankAccount, SavingAccount, CheckingAccount, Card, CreditCard, DebitCard,
CardGenerator, Services/Customers) sufficient to settle the frozen claims.

Money is embedded as `ℚ` (exact decimal arithmetic), machine `double`
idealized; timestamps are passed explicitly where the source calls
`time(nullptr)`.
-/

/-- Transaction type labels, from `Transaction.hpp`. -/
inductive TxType
| DEPOSIT | WITHDRAWAL | INTEREST | FEE | PURCHASE | UNKNOWN
deriving DecidableEq, Repr

/-- Immutable ledger entry, from `Transaction.cpp`: account number (stored as
string of the integer in the source, kept as `Int` here), type, amount,
balance-after snapshot, description, timestamp. -/
structure Tx where
  account : Int
  ttype : TxType
  amount : ℚ
  balanceAfter : ℚ
  description : String
  timestamp : Int
deriving DecidableEq, Repr

/-- Low-balance threshold constant (`LOW_BALANCE_THRESHOLD = 500.0` in
`BankAccount.hpp`). -/
def LOW_BALANCE_THRESHOLD : ℚ := 500

/-- State of a `BankAccount` (base class), from `BankAccount.cpp`:
account number, balance, interest rate, type label, low-balance flag,
append-only transaction list. -/
structure BankAccountState where
  accountNumber : Int
  balance : ℚ
  interestRate : ℚ
  accountType : String
  hasLowBalance : Bool
  transactions : List Tx
deriving DecidableEq, Repr

/-- `BankAccount::setLowBalance`: recomputes the flag against the 500.00
threshold (the on-edge hook only prints, so only the flag is modelled). -/
def BankAccount.setLowBalance (s : BankAccountState) : BankAccountState :=
  { s with hasLowBalance := decide (s.balance < LOW_BALANCE_THRESHOLD) }

/-- `BankAccount::applyDeposit` (`BankAccount.cpp:119-133`): rejects
`amount <= 0` by returning `false`; otherwise adds to the balance, appends a
DEPOSIT transaction stamped with the post-balance, updates low-balance. -/
def BankAccount.applyDeposit (s : BankAccountState) (amount : ℚ) (now : Int) :
    Bool × BankAccountState :=
  if amount ≤ 0 then (false, s)
  else
    let b := s.balance + amount
    let s1 : BankAccountState :=
      { s with balance := b,
               transactions := s.transactions ++
                 [⟨s.accountNumber, TxType.DEPOSIT, amount, b, "Deposit", now⟩] }
    (true, BankAccount.setLowBalance s1)

/-- Errors thrown by the withdraw paths: `std::invalid_argument` for
non-positive amounts, `std::runtime_error` for insufficient funds /
minimum-balance violation / monthly-limit violation (the latter two raised by
`SavingAccount::applyWithdraw`). -/
inductive WithdrawError
| invalidInput | insufficientFunds | minBalanceViolation | limitExceeded
deriving DecidableEq, Repr

/-- `BankAccount::applyWithdraw` (`BankAccount.cpp:147-163`): throws
InvalidInput if `amount <= 0`, InsufficientFunds if `balance < amount`;
otherwise subtracts, appends a WITHDRAWAL transaction stamped with the
post-balance, updates low-balance, returns `true`. The returned pair carries
the object state after the call; a thrown error leaves it unchanged (the
source throws before any mutation). -/
def BankAccount.applyWithdraw (s : BankAccountState) (amount : ℚ) (now : Int) :
    Except WithdrawError Bool × BankAccountState :=
  if amount ≤ 0 then (Except.error WithdrawError.invalidInput, s)
  else if s.balance < amount then (Except.error WithdrawError.insufficientFunds, s)
  else
    let b := s.balance - amount
    let s1 : BankAccountState :=
      { s with balance := b,
               transactions := s.transactions ++
                 [⟨s.accountNumber, TxType.WITHDRAWAL, amount, b, "Withdrawal", now⟩] }
    (Except.ok true, BankAccount.setLowBalance s1)

/-- `BankAccount::addTransaction` (`BankAccount.cpp:269-279`): appends a
transaction using the current balance as the balance-after snapshot and an
empty description. -/
def BankAccount.addTransaction (s : BankAccountState) (t : TxType) (amount : ℚ)
    (ts : Int) : BankAccountState :=
  { s with transactions := s.transactions ++
      [⟨s.accountNumber, t, amount, s.balance, "", ts⟩] }

/-- State of a `CheckingAccount` (`CheckingAccount.hpp`): the base
`BankAccount` state plus overdraft limit, monthly maintenance fee, fee-waiver
balance, overdraft-protection flag, monthly transaction count, daily
withdrawal limit, business flag, and the weak backup-account reference
(modelled as `Option`: `none` when unset or expired; mutations of the shared
backup object are threaded through the state). -/
structure CheckingAccountState where
  base : BankAccountState
  overdraftLimit : ℚ
  monthlyMaintenanceFee : ℚ
  minimumBalanceWaiver : ℚ
  hasOverdraftProtection : Bool
  monthlyTransactionCount : Nat
  dailyWithdrawalLimit : ℚ
  isBusinessAccount : Bool
  overdraftBackupAccount : Option BankAccountState
deriving DecidableEq, Repr

/-- `CheckingAccount::applyWithdraw` (`CheckingAccount.cpp:98-146`): rejects
`amount <= 0` with `false` (no exception); computes
`available = balance + overdraftLimit`; if `amount > available` it fails
without overdraft protection, otherwise resolves the backup (failing if
unset/expired), withdraws the exact shortfall from the backup via the base
`BankAccount::applyWithdraw` (whose exception propagates), pins this balance
to `-overdraftLimit`, records the full amount as a WITHDRAWAL transaction,
increments the monthly counter, and re-evaluates low-balance; if
`amount ≤ available` it withdraws normally with the same bookkeeping. -/
def CheckingAccount.applyWithdraw (s : CheckingAccountState) (amount : ℚ)
    (now : Int) : Except WithdrawError Bool × CheckingAccountState :=
  if amount ≤ 0 then (Except.ok false, s)
  else
    let currentBalance := s.base.balance
    let available := currentBalance + s.overdraftLimit
    if available < amount then
      if !s.hasOverdraftProtection then (Except.ok false, s)
      else
        match s.overdraftBackupAccount with
        | none => (Except.ok false, s)
        | some backup =>
          let neededFromBackup := amount - available
          match BankAccount.applyWithdraw backup neededFromBackup now with
          | (Except.error e, backup1) =>
            (Except.error e, { s with overdraftBackupAccount := some backup1 })
          | (Except.ok ok, backup1) =>
            if !ok then
              (Except.ok false, { s with overdraftBackupAccount := some backup1 })
            else
              let base1 := BankAccount.addTransaction
                { s.base with balance := -s.overdraftLimit }
                TxType.WITHDRAWAL amount now
              (Except.ok true,
                { s with base := BankAccount.setLowBalance base1,
                         monthlyTransactionCount := s.monthlyTransactionCount + 1,
                         overdraftBackupAccount := some backup1 })
    else
      let base1 := BankAccount.addTransaction
        { s.base with balance := currentBalance - amount }
        TxType.WITHDRAWAL amount now
      (Except.ok true,
        { s with base := BankAccount.setLowBalance base1,
                 monthlyTransactionCount := s.monthlyTransactionCount + 1 })


/-- State of a `SavingAccount` (`SavingAccount.hpp`): base state plus the
minimum balance (500.0 in every constructor, no setter), the withdrawals
performed this cycle, and the savings-specific interest rate. -/
structure SavingAccountState where
  base : BankAccountState
  minBalance : ℚ
  withdrawalTimesThisMonth : Nat
  savingInterestRate : ℚ
deriving DecidableEq, Repr

/-- `SavingAccount::applyWithdraw` (`SavingAccount.cpp:56-73`): throws a
runtime error (insufficient-funds class) if `balance - amount < minBalance`;
throws a limit error if 6 or more withdrawals already occurred this cycle;
otherwise delegates to `BankAccount::applyWithdraw` (whose own errors
propagate) and, only on success, increments the cycle counter. -/
def SavingAccount.applyWithdraw (s : SavingAccountState) (amount : ℚ)
    (now : Int) : Except WithdrawError Bool × SavingAccountState :=
  if s.base.balance - amount < s.minBalance then
    (Except.error WithdrawError.minBalanceViolation, s)
  else if 6 ≤ s.withdrawalTimesThisMonth then
    (Except.error WithdrawError.limitExceeded, s)
  else
    match BankAccount.applyWithdraw s.base amount now with
    | (Except.error e, base1) => (Except.error e, { s with base := base1 })
    | (Except.ok ok, base1) =>
      if ok then
        (Except.ok true,
          { s with base := base1,
                   withdrawalTimesThisMonth := s.withdrawalTimesThisMonth + 1 })
      else (Except.ok false, { s with base := base1 })

/-- `SavingAccount::resetMonthlyWithdrawals` (`SavingAccount.cpp:102-105`):
zeroes the cycle withdrawal counter. -/
def SavingAccount.resetMonthlyWithdrawals (s : SavingAccountState) :
    SavingAccountState :=
  { s with withdrawalTimesThisMonth := 0 }

/-- Luhn digit fold of `CardGenerator::calculateLuhn`
(`CardGenerator.cpp:37-52`): walks the digits from the right, doubling every
second digit starting with the second-from-right (the first has
`alternate = false`), folding doubled values above 9 by summing their two
decimal digits, and summing everything. Card numbers are embedded as lists of
decimal digits (the source stores them as strings of digit characters). -/
def luhnSum (digits : List ℕ) : ℕ :=
  (digits.reverse.foldl
    (fun (acc : ℕ × Bool) d =>
      let n := if acc.2 then (if 9 < 2 * d then 2 * d / 10 + 2 * d % 10 else 2 * d) else d
      (acc.1 + n, !acc.2))
    (0, false)).1

/-- `CardGenerator::calculateLuhn` check digit: `(10 - sum % 10) % 10`. -/
def calculateLuhn (digits : List ℕ) : ℕ :=
  (10 - luhnSum digits % 10) % 10

/-- Process-wide issued-number registry
(`CardGenerator::issued_numbers_`). -/
structure GenState where
  issued : List (List ℕ)
deriving DecidableEq, Repr

/-- `CardGenerator::generate` (`CardGenerator.cpp:9-34`): appends
`16 - length(bin) - 1` secure random digits (each random byte reduced mod 10)
to the BIN digits, appends the Luhn check digit over those 15 digits, records
the full number in the issued-number registry, and returns it. The random
byte stream is passed explicitly. -/
def CardGenerator.generate (bin : List ℕ) (randBytes : List ℕ) (g : GenState) :
    List ℕ × GenState :=
  let remaining := 16 - bin.length - 1
  let body := bin ++ (randBytes.take remaining).map (· % 10)
  let number := body ++ [calculateLuhn body]
  (number, ⟨number :: g.issued⟩)

/-- `CardGenerator::validate` (`CardGenerator.cpp:66-75`): true only if the
length is in [13,19], the last digit matches the recomputed Luhn check digit
over the prefix, and the full number is present in the issued-number
registry. -/
def CardGenerator.validate (number : List ℕ) (g : GenState) : Bool :=
  if number.length < 13 ∨ 19 < number.length then false
  else
    decide (number.getLast? = some (calculateLuhn number.dropLast)) &&
    decide (number ∈ g.issued)

/-- `Card::generateCardNumber` (`Card.cpp:230-242`): mt19937-based test/demo
generator; emits the prefix followed by exactly 15 uniform digits (the random
digit stream is passed explicitly). It never touches the issued-number
registry. -/
def Card.generateCardNumber (pre : List ℕ) (randDigits : List ℕ) : List ℕ :=
  pre ++ randDigits.take 15

/-- `DebitCard::generateCardNumberWithPrefix` (`DebitCard.cpp:300-313`):
appends secure random digits (bytes mod 10) to the prefix until the number
reaches 16 digits. It never touches the issued-number registry. -/
def DebitCard.generateCardNumberWithPrefix (pre : List ℕ) (randBytes : List ℕ) :
    List ℕ :=
  pre ++ (randBytes.take (16 - pre.length)).map (· % 10)

/-- Card-number dataflow of
`CreditCard::CreditCard(double, bool, shared_ptr<BankAccount>)`
(`CreditCard.cpp:40-55`): the base-initializer `Card("5", true)` resolves by
overload resolution to the public `Card(bool, bool)` constructor — the
standard `const char*` → `bool` conversion beats the user-defined conversion
to `std::string` — so `CardGenerator::generate` is never called and the
issued-number registry is untouched; the constructor body then assigns
`setCardNumber(generateCardNumber("5"))`, the mt19937 generator. Returns the
assigned card number and the (unchanged) registry. -/
def CreditCard.constructNumber (mtDigits : List ℕ) (g : GenState) :
    List ℕ × GenState :=
  (Card.generateCardNumber [5] mtDigits, g)

/-- Card-number dataflow of
`DebitCard::DebitCard(shared_ptr<CheckingAccount>, double, string)`
(`DebitCard.cpp:58-88`): the base `Card(true, false)` constructor generates
nothing; the body assigns `generateCardNumberWithPrefix("4")`. The registry
is never consulted or updated. -/
def DebitCard.constructNumber (randBytes : List ℕ) (g : GenState) :
    List ℕ × GenState :=
  (DebitCard.generateCardNumberWithPrefix [4] randBytes, g)

/-- String-level card state shared by all cards (`Card.hpp`): card number,
expiration "MM/YY", CVV, activation flag, expired flag. -/
structure CardState where
  cardNumber : String
  expiration : String
  cvv : String
  isActivated : Bool
  isExpired : Bool
deriving DecidableEq, Repr

/-- `Card::validate` (`Card.cpp:120-126`): false if the card number is empty
or "NONE", if the expiration is empty or "NONE", or if the CVV is empty or
"None"; true otherwise. -/
def Card.validate (c : CardState) : Bool :=
  if c.cardNumber = "" ∨ c.cardNumber = "NONE" then false
  else if c.expiration = "" ∨ c.expiration = "NONE" then false
  else if c.cvv = "" ∨ c.cvv = "None" then false
  else true

/-- `Card::markExpired` (`Card.cpp:173-178`): forces the expiration to the
sentinel "00/00", sets the expired flag, and deactivates the card. -/
def Card.markExpired (c : CardState) : CardState :=
  { c with expiration := "00/00", isExpired := true, isActivated := false }

/-- Salted PIN digest. `SecurityHelper::hashPin(pin, salt)` is SHA-256 over
`salt ‖ pin`; the collision-resistant hash is idealized as the injective pair
of its inputs. -/
structure PinDigest where
  salt : String
  pin : String
deriving DecidableEq, Repr

/-- Idealized `SecurityHelper::hashPin` (see `PinDigest`). -/
def hashPin (pin salt : String) : PinDigest :=
  ⟨salt, pin⟩

/-- PIN-relevant state of a `DebitCard` (`DebitCard.hpp`): activation flag,
stored salt, stored PIN digest, and the failed-attempt counter. -/
structure DebitCardPinState where
  isActivated : Bool
  salt : String
  pinHash : PinDigest
  failedAttempts : Nat
deriving DecidableEq, Repr

/-- `DebitCard::verifyPin` (`DebitCard.cpp:269-291`): if the failed-attempt
counter already reached 3, returns false immediately; otherwise compares
`hashPin(attempt, salt)` with the stored digest — a mismatch increments the
counter and, when it reaches 3, deactivates the card; a match resets the
counter to 0 and returns true. -/
def DebitCard.verifyPin (s : DebitCardPinState) (attempt : String) :
    Bool × DebitCardPinState :=
  if 3 ≤ s.failedAttempts then (false, s)
  else if hashPin attempt s.salt ≠ s.pinHash then
    let f := s.failedAttempts + 1
    if 3 ≤ f then (false, { s with failedAttempts := f, isActivated := false })
    else (false, { s with failedAttempts := f })
  else (true, { s with failedAttempts := 0 })

/-- `DebitCard::setPin` (`DebitCard.cpp:151-168`): accepts only PINs of 4-6
characters; on success stores a fresh random salt (passed explicitly) and the
digest `hashPin(pin, salt)`. The failed-attempt counter is not touched. -/
def DebitCard.setPin (s : DebitCardPinState) (pin newSalt : String) :
    Bool × DebitCardPinState :=
  if pin.length < 4 ∨ 6 < pin.length then (false, s)
  else (true, { s with salt := newSalt, pinHash := hashPin pin newSalt })

/-- `DebitCard::changePin` (`DebitCard.cpp:177-190`): verifies the old PIN
first (with its counter side effects); on success delegates to `setPin`. -/
def DebitCard.changePin (s : DebitCardPinState) (oldPin newPin newSalt : String) :
    Bool × DebitCardPinState :=
  match DebitCard.verifyPin s oldPin with
  | (false, s1) => (false, s1)
  | (true, s1) => DebitCard.setPin s1 newPin newSalt

/-- The operations of a `DebitCard` that touch activation, the stored PIN
digest, or the failed-attempt counter. -/
inductive DebitCardOp
| verify (attempt : String)
| set (pin newSalt : String)
| change (oldPin newPin newSalt : String)
| activate (b : Bool)
deriving DecidableEq, Repr

/-- State effect of one `DebitCardOp` (the returned Bool is dropped);
`activate` is `Card::setActivated`, which only writes the flag. -/
def DebitCard.step (s : DebitCardPinState) : DebitCardOp → DebitCardPinState
| DebitCardOp.verify attempt => (DebitCard.verifyPin s attempt).2
| DebitCardOp.set pin newSalt => (DebitCard.setPin s pin newSalt).2
| DebitCardOp.change o n ns => (DebitCard.changePin s o n ns).2
| DebitCardOp.activate b => { s with isActivated := b }

/-- Payment-relevant state of a `DebitCard` (`DebitCard.hpp`): activation,
the weak link to the checking account (`none` when expired/unset; mutations
of the shared account are threaded through), the daily withdrawal limit and
the daily spend tracking field. -/
structure DebitCardPayState where
  isActivated : Bool
  linkedAccount : Option CheckingAccountState
  dailyWithdrawalLimit : ℚ
  dailySpendAmount : ℚ
  contactlessEnable : Bool
deriving DecidableEq, Repr

/-- `DebitCard::processPayment` (`DebitCard.cpp:203-215`): fails if the card
is deactivated or the linked account is unresolvable; fails if the amount
exceeds the account's current balance; otherwise delegates to the account's
`applyWithdraw`. -/
def DebitCard.processPayment (c : DebitCardPayState) (amount : ℚ) (now : Int) :
    Except WithdrawError Bool × DebitCardPayState :=
  if !c.isActivated then (Except.ok false, c)
  else
    match c.linkedAccount with
    | none => (Except.ok false, c)
    | some acct =>
      if acct.base.balance < amount then (Except.ok false, c)
      else
        match CheckingAccount.applyWithdraw acct amount now with
        | (r, acct1) => (r, { c with linkedAccount := some acct1 })

/-- A customer as held by `Services` (`Customers.cpp`): only the owned
bank-account list matters for account closure. -/
structure CustomerState where
  customerId : String
  accounts : List BankAccountState
deriving DecidableEq, Repr

/-- `Customers::removeAccount` (`Customers.cpp:359-372`): remove-erase of
every owned account whose number matches; returns whether anything was
removed. -/
def Customers.removeAccount (c : CustomerState) (n : Int) : Bool × CustomerState :=
  let remaining := c.accounts.filter (fun a => a.accountNumber ≠ n)
  if remaining.length = c.accounts.length then (false, c)
  else (true, { c with accounts := remaining })

/-- The two in-memory registries of `Services` (`Services.hpp`):
`customers_` and `all_accounts_`. -/
structure ServicesState where
  customers : List CustomerState
  allAccounts : List BankAccountState
deriving DecidableEq, Repr

/-- `Services::closeAccount` (`Services.cpp:179-213`): first removes the
account from every customer's profile; if no profile held it, returns false;
otherwise looks it up in the global registry — returning false (with the
profile removals already performed) if absent — and erases the first match
on success. -/
def Services.closeAccount (s : ServicesState) (n : Int) : Bool × ServicesState :=
  let stepped := s.customers.map (fun c => Customers.removeAccount c n)
  let unlinked := stepped.any (fun r => r.1)
  let customers1 := stepped.map (fun r => r.2)
  if !unlinked then (false, { s with customers := customers1 })
  else
    match s.allAccounts.find? (fun a => a.accountNumber = n) with
    | none => (false, { s with customers := customers1 })
    | some _ =>
      (true, { s with customers := customers1,
                      allAccounts := s.allAccounts.eraseP
                        (fun a => a.accountNumber = n) })

/-- Projection hiding the daily withdrawal limit of a checking account; two
states agree under it exactly when they differ at most in that field. -/
def CheckingAccount.eraseDailyLimit (s : CheckingAccountState) :
    CheckingAccountState :=
  { s with dailyWithdrawalLimit := 0 }

/-- Projection hiding the daily withdrawal limit and daily spend of a debit
card, and the daily limit of its linked account. -/
def DebitCard.erasePayLimits (c : DebitCardPayState) : DebitCardPayState :=
  { c with dailyWithdrawalLimit := 0, dailySpendAmount := 0,
           linkedAccount := c.linkedAccount.map CheckingAccount.eraseDailyLimit }

-- ===== Theorems =====

/-- Claim C2: base-class `BankAccount` behavior. `applyDeposit(amount)`
returns `false` iff `amount ≤ 0` and then leaves the state unchanged; on
success it appends exactly one DEPOSIT transaction whose balance-after equals
the post-operation balance. `applyWithdraw(amount)` raises InvalidInput
exactly when `amount ≤ 0` and InsufficientFunds exactly when the amount is
positive and exceeds the balance, leaving the state unchanged whenever it
raises; on success it appends exactly one WITHDRAWAL transaction whose
balance-after equals the post-operation balance. -/
theorem bankAccount_deposit_withdraw_spec (s : BankAccountState) (a : ℚ) (now : Int) :
    ((BankAccount.applyDeposit s a now).1 = false ↔ a ≤ 0) ∧
    (a ≤ 0 → (BankAccount.applyDeposit s a now).2 = s) ∧
    (0 < a →
      (BankAccount.applyDeposit s a now).1 = true ∧
      (BankAccount.applyDeposit s a now).2.balance = s.balance + a ∧
      (BankAccount.applyDeposit s a now).2.transactions =
        s.transactions ++
          [⟨s.accountNumber, TxType.DEPOSIT, a, s.balance + a, "Deposit", now⟩]) ∧
    ((BankAccount.applyWithdraw s a now).1 = Except.error WithdrawError.invalidInput ↔
      a ≤ 0) ∧
    ((BankAccount.applyWithdraw s a now).1 = Except.error WithdrawError.insufficientFunds ↔
      0 < a ∧ s.balance < a) ∧
    (∀ e, (BankAccount.applyWithdraw s a now).1 = Except.error e →
      (BankAccount.applyWithdraw s a now).2 = s) ∧
    (0 < a → a ≤ s.balance →
      (BankAccount.applyWithdraw s a now).1 = Except.ok true ∧
      (BankAccount.applyWithdraw s a now).2.balance = s.balance - a ∧
      (BankAccount.applyWithdraw s a now).2.transactions =
        s.transactions ++
          [⟨s.accountNumber, TxType.WITHDRAWAL, a, s.balance - a, "Withdrawal", now⟩]) := by
  unfold BankAccount.applyDeposit BankAccount.applyWithdraw BankAccount.setLowBalance
  by_cases h1 : a ≤ 0
  · simp [h1]
  · have h1' : 0 < a := lt_of_not_ge h1
    by_cases h2 : s.balance < a
    · simp [h1, h2, h1', le_of_lt h2]
    · simp [h1, h2, h1', le_of_not_lt h2]

/-- Claim C2 witness: concrete instantiation at balance 100, amount 40. -/
theorem bankAccount_deposit_withdraw_spec_witness :
    (BankAccount.applyWithdraw ⟨1000, 100, 0, "NONE", false, []⟩ 40 0).1 =
      Except.ok true ∧
    (BankAccount.applyWithdraw ⟨1000, 100, 0, "NONE", false, []⟩ 40 0).2.balance = 60 := by
  have h := bankAccount_deposit_withdraw_spec ⟨1000, 100, 0, "NONE", false, []⟩ 40 0
  have h7 := h.2.2.2.2.2.2 (by norm_num) (by norm_num)
  exact ⟨h7.1, by rw [h7.2.1]; norm_num⟩

/-- Claim C1: `CheckingAccount::applyWithdraw`. With
`0 < amount ≤ balance + overdraftLimit` it succeeds and decreases the balance
by exactly `amount`; with `amount > balance + overdraftLimit` and overdraft
protection disabled it fails leaving the state unchanged; with protection
enabled and a resolvable backup whose balance covers the shortfall it
succeeds, debits the backup by exactly `amount - (balance + overdraftLimit)`,
sets this account's balance to exactly `-overdraftLimit`, and records the
full amount as a WITHDRAWAL transaction. -/
theorem checkingAccount_applyWithdraw_spec (s : CheckingAccountState) (a : ℚ)
    (now : Int) :
    (0 < a → a ≤ s.base.balance + s.overdraftLimit →
      (CheckingAccount.applyWithdraw s a now).1 = Except.ok true ∧
      (CheckingAccount.applyWithdraw s a now).2.base.balance =
        s.base.balance - a) ∧
    (s.base.balance + s.overdraftLimit < a → s.hasOverdraftProtection = false →
      CheckingAccount.applyWithdraw s a now = (Except.ok false, s)) ∧
    (∀ backup, 0 < a → s.base.balance + s.overdraftLimit < a →
      s.hasOverdraftProtection = true →
      s.overdraftBackupAccount = some backup →
      a - (s.base.balance + s.overdraftLimit) ≤ backup.balance →
      (CheckingAccount.applyWithdraw s a now).1 = Except.ok true ∧
      (CheckingAccount.applyWithdraw s a now).2.base.balance =
        -s.overdraftLimit ∧
      ((CheckingAccount.applyWithdraw s a now).2.overdraftBackupAccount.map
          BankAccountState.balance) =
        some (backup.balance - (a - (s.base.balance + s.overdraftLimit))) ∧
      (CheckingAccount.applyWithdraw s a now).2.base.transactions =
        s.base.transactions ++
          [⟨s.base.accountNumber, TxType.WITHDRAWAL, a, -s.overdraftLimit, "",
            now⟩]) := by
  refine ⟨?_, ?_, ?_⟩
  · intro ha hle
    have h0 : ¬ a ≤ 0 := not_le_of_lt ha
    have h1 : ¬ s.base.balance + s.overdraftLimit < a := not_lt_of_le hle
    simp [CheckingAccount.applyWithdraw, h0, h1, BankAccount.setLowBalance,
      BankAccount.addTransaction]
  · intro hgt hprot
    by_cases h0 : a ≤ 0
    · simp [CheckingAccount.applyWithdraw, h0]
    · simp [CheckingAccount.applyWithdraw, h0, hgt, hprot]
  · intro backup ha hgt hprot hbk hcov
    have h0 : ¬ a ≤ 0 := not_le_of_lt ha
    have hneed0 : ¬ a - (s.base.balance + s.overdraftLimit) ≤ 0 :=
      not_le_of_lt (sub_pos.mpr hgt)
    have hins : ¬ backup.balance < a - (s.base.balance + s.overdraftLimit) :=
      not_lt_of_le hcov
    simp [CheckingAccount.applyWithdraw, h0, hgt, hprot, hbk,
      BankAccount.applyWithdraw, hneed0, hins, BankAccount.addTransaction,
      BankAccount.setLowBalance]

/-- Claim C1 witness: balance 100.00, overdraft limit 50.00 — withdrawing
150.00 succeeds leaving -50.00; withdrawing 150.01 without protection fails
unchanged; with protection and a backup holding 500.00, withdrawing 200.00
succeeds, pins the balance to -50.00 and debits the backup by 50.00. -/
theorem checkingAccount_applyWithdraw_spec_witness :
    (CheckingAccount.applyWithdraw
      ⟨⟨1000, 100, 0, "None", false, []⟩, 50, 10, 1500, false, 0, 500, false,
        none⟩ 150 0).1 = Except.ok true ∧
    (CheckingAccount.applyWithdraw
      ⟨⟨1000, 100, 0, "None", false, []⟩, 50, 10, 1500, false, 0, 500, false,
        none⟩ 150 0).2.base.balance = -50 ∧
    CheckingAccount.applyWithdraw
      ⟨⟨1000, 100, 0, "None", false, []⟩, 50, 10, 1500, false, 0, 500, false,
        none⟩ (15001/100) 0 =
      (Except.ok false,
        ⟨⟨1000, 100, 0, "None", false, []⟩, 50, 10, 1500, false, 0, 500, false,
          none⟩) ∧
    (CheckingAccount.applyWithdraw
      ⟨⟨1000, 100, 0, "None", false, []⟩, 50, 10, 1500, true, 0, 500, false,
        some ⟨1001, 500, 0, "NONE", false, []⟩⟩ 200 0).1 = Except.ok true ∧
    (CheckingAccount.applyWithdraw
      ⟨⟨1000, 100, 0, "None", false, []⟩, 50, 10, 1500, true, 0, 500, false,
        some ⟨1001, 500, 0, "NONE", false, []⟩⟩ 200 0).2.base.balance = -50 ∧
    ((CheckingAccount.applyWithdraw
      ⟨⟨1000, 100, 0, "None", false, []⟩, 50, 10, 1500, true, 0, 500, false,
        some ⟨1001, 500, 0, "NONE", false, []⟩⟩ 200 0).2.overdraftBackupAccount.map
      BankAccountState.balance) = some 450 := by
  have h1 := (checkingAccount_applyWithdraw_spec
    ⟨⟨1000, 100, 0, "None", false, []⟩, 50, 10, 1500, false, 0, 500, false,
      none⟩ 150 0).1 (by norm_num) (show (150:ℚ) ≤ 100 + 50 by norm_num)
  have h2 := (checkingAccount_applyWithdraw_spec
    ⟨⟨1000, 100, 0, "None", false, []⟩, 50, 10, 1500, false, 0, 500, false,
      none⟩ (15001/100) 0).2.1 (show (100:ℚ) + 50 < 15001/100 by norm_num) rfl
  have h3 := (checkingAccount_applyWithdraw_spec
    ⟨⟨1000, 100, 0, "None", false, []⟩, 50, 10, 1500, true, 0, 500, false,
      some ⟨1001, 500, 0, "NONE", false, []⟩⟩ 200 0).2.2
    ⟨1001, 500, 0, "NONE", false, []⟩ (by norm_num)
    (show (100:ℚ) + 50 < 200 by norm_num) rfl rfl
    (show (200:ℚ) - (100 + 50) ≤ 500 by norm_num)
  exact ⟨h1.1, h1.2.trans (show (100:ℚ) - 150 = -50 by norm_num), h2, h3.1,
    h3.2.1.trans (show -(50:ℚ) = -50 by norm_num),
    h3.2.2.1.trans (show some ((500:ℚ) - (200 - (100 + 50))) = some 450 by
      norm_num)⟩

/-- Claim C3: `SavingAccount::applyWithdraw` with fewer than 6 withdrawals
this cycle raises the insufficient-funds-class (minimum balance) error
whenever `balance - amount < 500.00`, leaving the state unchanged; when
`0 < amount` and `balance - amount ≥ 500.00` it succeeds, decreases the
balance by exactly `amount`, and increments the cycle counter by one. -/
theorem savingAccount_applyWithdraw_spec (s : SavingAccountState) (a : ℚ)
    (now : Int) (hcnt : s.withdrawalTimesThisMonth < 6)
    (hmin : s.minBalance = 500) :
    (s.base.balance - a < 500 →
      SavingAccount.applyWithdraw s a now =
        (Except.error WithdrawError.minBalanceViolation, s)) ∧
    (0 < a → 500 ≤ s.base.balance - a →
      (SavingAccount.applyWithdraw s a now).1 = Except.ok true ∧
      (SavingAccount.applyWithdraw s a now).2.base.balance =
        s.base.balance - a ∧
      (SavingAccount.applyWithdraw s a now).2.withdrawalTimesThisMonth =
        s.withdrawalTimesThisMonth + 1) := by
  constructor
  · intro hlow
    simp [SavingAccount.applyWithdraw, hmin, hlow]
  · intro ha hhigh
    have h1 : ¬ s.base.balance - a < s.minBalance := by
      rw [hmin]; exact not_lt_of_le hhigh
    have h2 : ¬ 6 ≤ s.withdrawalTimesThisMonth := not_le_of_lt hcnt
    have h3 : ¬ a ≤ 0 := not_le_of_lt ha
    have h4 : ¬ s.base.balance < a := by
      have : a + 500 ≤ s.base.balance := by linarith
      exact not_lt_of_le (by linarith)
    simp [SavingAccount.applyWithdraw, h1, h2, BankAccount.applyWithdraw, h3,
      h4, BankAccount.setLowBalance]

/-- Claim C3 witness: balance 600.00 — withdrawing 150.00 is rejected with
the minimum-balance error; withdrawing 90.00 succeeds leaving 510.00 with the
counter at 1. -/
theorem savingAccount_applyWithdraw_spec_witness :
    SavingAccount.applyWithdraw ⟨⟨1000, 600, 0, "NONE", false, []⟩, 500, 0, 0⟩
      150 0 =
      (Except.error WithdrawError.minBalanceViolation,
        ⟨⟨1000, 600, 0, "NONE", false, []⟩, 500, 0, 0⟩) ∧
    (SavingAccount.applyWithdraw ⟨⟨1000, 600, 0, "NONE", false, []⟩, 500, 0, 0⟩
      90 0).1 = Except.ok true ∧
    (SavingAccount.applyWithdraw ⟨⟨1000, 600, 0, "NONE", false, []⟩, 500, 0, 0⟩
      90 0).2.base.balance = 510 := by
  have h1 := (savingAccount_applyWithdraw_spec
    ⟨⟨1000, 600, 0, "NONE", false, []⟩, 500, 0, 0⟩ 150 0 (by norm_num) rfl).1
    (show (600:ℚ) - 150 < 500 by norm_num)
  have h2 := (savingAccount_applyWithdraw_spec
    ⟨⟨1000, 600, 0, "NONE", false, []⟩, 500, 0, 0⟩ 90 0 (by norm_num) rfl).2
    (by norm_num) (show (500:ℚ) ≤ 600 - 90 by norm_num)
  exact ⟨h1, h2.1, h2.2.1.trans (show (600:ℚ) - 90 = 510 by norm_num)⟩

/-- Claim C4: once the cycle withdrawal counter has reached 6,
`SavingAccount::applyWithdraw` raises the limit-exceeded error for every
amount that would otherwise be permitted (positive and preserving the
minimum balance), leaving the state unchanged; after
`resetMonthlyWithdrawals` zeroes the counter, the same withdrawal
succeeds. -/
theorem savingAccount_monthlyCap_spec (s : SavingAccountState) (a : ℚ)
    (now : Int) (hcnt : 6 ≤ s.withdrawalTimesThisMonth)
    (hmin : s.minBalance = 500) :
    (0 < a → 500 ≤ s.base.balance - a →
      SavingAccount.applyWithdraw s a now =
        (Except.error WithdrawError.limitExceeded, s)) ∧
    ((SavingAccount.resetMonthlyWithdrawals s).withdrawalTimesThisMonth = 0) ∧
    (0 < a → 500 ≤ s.base.balance - a →
      (SavingAccount.applyWithdraw (SavingAccount.resetMonthlyWithdrawals s) a
        now).1 = Except.ok true ∧
      (SavingAccount.applyWithdraw (SavingAccount.resetMonthlyWithdrawals s) a
        now).2.base.balance = s.base.balance - a) := by
  refine ⟨?_, rfl, ?_⟩
  · intro _ hhigh
    have h1 : ¬ s.base.balance - a < s.minBalance := by
      rw [hmin]; exact not_lt_of_le hhigh
    simp [SavingAccount.applyWithdraw, h1, hcnt]
  · intro ha hhigh
    have h := savingAccount_applyWithdraw_spec
      (SavingAccount.resetMonthlyWithdrawals s) a now (by
        simp [SavingAccount.resetMonthlyWithdrawals]) (by
        simpa [SavingAccount.resetMonthlyWithdrawals] using hmin)
    have h2 := h.2 ha (by
      simpa [SavingAccount.resetMonthlyWithdrawals] using hhigh)
    exact ⟨h2.1, by
      simpa [SavingAccount.resetMonthlyWithdrawals] using h2.2.1⟩

/-- Claim C4 witness: counter at 6, balance 700.00 — withdrawing 100.00 fails
with the limit error; after the monthly reset the same withdrawal succeeds
leaving 600.00. -/
theorem savingAccount_monthlyCap_spec_witness :
    SavingAccount.applyWithdraw ⟨⟨1000, 700, 0, "NONE", false, []⟩, 500, 6, 0⟩
      100 0 =
      (Except.error WithdrawError.limitExceeded,
        ⟨⟨1000, 700, 0, "NONE", false, []⟩, 500, 6, 0⟩) ∧
    (SavingAccount.applyWithdraw
      (SavingAccount.resetMonthlyWithdrawals
        ⟨⟨1000, 700, 0, "NONE", false, []⟩, 500, 6, 0⟩) 100 0).1 =
      Except.ok true := by
  have h := savingAccount_monthlyCap_spec
    ⟨⟨1000, 700, 0, "NONE", false, []⟩, 500, 6, 0⟩ 100 0 (by norm_num) rfl
  exact ⟨h.1 (by norm_num) (show (500:ℚ) ≤ 700 - 100 by norm_num),
    (h.2.2 (by norm_num) (show (500:ℚ) ≤ 700 - 100 by norm_num)).1⟩

/-- Claim C5: `DebitCard::verifyPin` lockout. From a fresh counter, three
consecutive wrong PIN attempts deactivate the card and drive the counter to
3; a fourth attempt with the correct PIN still returns false; and once the
counter has reached 3 no card operation (verify/setPin/changePin/
setActivated) lowers it, while `verifyPin` always returns false. -/
theorem debitCard_pinLockout_spec (s : DebitCardPinState) (pin a1 a2 a3 : String)
    (hhash : s.pinHash = hashPin pin s.salt) (hf : s.failedAttempts = 0)
    (h1 : a1 ≠ pin) (h2 : a2 ≠ pin) (h3 : a3 ≠ pin) :
    (DebitCard.step (DebitCard.step (DebitCard.step s
      (DebitCardOp.verify a1)) (DebitCardOp.verify a2))
      (DebitCardOp.verify a3)).isActivated = false ∧
    (DebitCard.step (DebitCard.step (DebitCard.step s
      (DebitCardOp.verify a1)) (DebitCardOp.verify a2))
      (DebitCardOp.verify a3)).failedAttempts = 3 ∧
    (DebitCard.verifyPin (DebitCard.step (DebitCard.step (DebitCard.step s
      (DebitCardOp.verify a1)) (DebitCardOp.verify a2))
      (DebitCardOp.verify a3)) pin).1 = false ∧
    (∀ t : DebitCardPinState, 3 ≤ t.failedAttempts →
      ∀ op, 3 ≤ (DebitCard.step t op).failedAttempts) ∧
    (∀ t : DebitCardPinState, 3 ≤ t.failedAttempts →
      ∀ attempt, (DebitCard.verifyPin t attempt).1 = false) := by
  obtain ⟨act, salt, ph, f⟩ := s
  simp only at hhash hf
  subst hhash hf
  have e1 : hashPin a1 salt ≠ hashPin pin salt := by
    simp [hashPin, h1]
  have e2 : hashPin a2 salt ≠ hashPin pin salt := by
    simp [hashPin, h2]
  have e3 : hashPin a3 salt ≠ hashPin pin salt := by
    simp [hashPin, h3]
  refine ⟨?_, ?_, ?_, ?_, ?_⟩
  · simp [DebitCard.step, DebitCard.verifyPin, e1, e2, e3]
  · simp [DebitCard.step, DebitCard.verifyPin, e1, e2, e3]
  · simp [DebitCard.step, DebitCard.verifyPin, e1, e2, e3]
  · intro t ht op
    cases op with
    | verify attempt =>
      simp [DebitCard.step, DebitCard.verifyPin, ht]
    | set pin2 newSalt =>
      by_cases hp : pin2.length < 4 ∨ 6 < pin2.length <;>
        simp [DebitCard.step, DebitCard.setPin, hp, ht]
    | change o n2 ns =>
      simp [DebitCard.step, DebitCard.changePin, DebitCard.verifyPin, ht]
    | activate b =>
      simp [DebitCard.step, ht]
  · intro t ht attempt
    simp [DebitCard.verifyPin, ht]

/-- Claim C5 witness: stored PIN "1234", wrong attempts "0000", "1111",
"2222" lock the card; the fourth, correct attempt still fails. -/
theorem debitCard_pinLockout_spec_witness :
    (DebitCard.step (DebitCard.step (DebitCard.step
      ⟨true, "s", ⟨"s", "1234"⟩, 0⟩ (DebitCardOp.verify "0000"))
      (DebitCardOp.verify "1111")) (DebitCardOp.verify "2222")).isActivated =
      false ∧
    (DebitCard.verifyPin (DebitCard.step (DebitCard.step (DebitCard.step
      ⟨true, "s", ⟨"s", "1234"⟩, 0⟩ (DebitCardOp.verify "0000"))
      (DebitCardOp.verify "1111")) (DebitCardOp.verify "2222")) "1234").1 =
      false := by
  have h := debitCard_pinLockout_spec ⟨true, "s", ⟨"s", "1234"⟩, 0⟩ "1234"
    "0000" "1111" "2222" rfl rfl (by decide) (by decide) (by decide)
  exact ⟨h.1, h.2.2.1⟩

/-- Claim C6: every number returned by `CardGenerator::generate` is 16 digits
long, its last digit is the Luhn check digit recomputed over the first 15
(the check computed by doubling every second digit from the right, folding
digits above 9, and taking `(10 - sum mod 10) mod 10`), and `validate`
accepts it as issued; conversely any 16-digit number with a correct check
digit that is not in the issued-number registry is rejected by `validate`. -/
theorem cardGenerator_luhn_spec :
    (∀ (bin bytes : List ℕ) (g : GenState), (∀ d ∈ bin, d < 10) →
      bin.length ≤ 15 → 16 - bin.length - 1 ≤ bytes.length →
      (CardGenerator.generate bin bytes g).1.length = 16 ∧
      (CardGenerator.generate bin bytes g).1.getLast? =
        some (calculateLuhn (CardGenerator.generate bin bytes g).1.dropLast) ∧
      CardGenerator.validate (CardGenerator.generate bin bytes g).1
        (CardGenerator.generate bin bytes g).2 = true) ∧
    (∀ (m : List ℕ) (g : GenState), m.length = 16 →
      m.getLast? = some (calculateLuhn m.dropLast) → m ∉ g.issued →
      CardGenerator.validate m g = false) := by
  constructor
  · intro bin bytes g _ hlen hbytes
    have hbody : (bin ++ List.map (fun d => d % 10)
        (bytes.take (16 - bin.length - 1))).length = 15 := by
      rw [List.length_append, List.length_map, List.length_take_of_le hbytes]
      omega
    have hnum : (CardGenerator.generate bin bytes g).1 =
        (bin ++ List.map (fun d => d % 10) (bytes.take (16 - bin.length - 1))) ++
          [calculateLuhn (bin ++ List.map (fun d => d % 10)
            (bytes.take (16 - bin.length - 1)))] := rfl
    have hL : (CardGenerator.generate bin bytes g).1.length = 16 := by
      rw [hnum, List.length_append, hbody]
      rfl
    have hglast : (CardGenerator.generate bin bytes g).1.getLast? =
        some (calculateLuhn (CardGenerator.generate bin bytes g).1.dropLast) := by
      rw [hnum, List.getLast?_concat, List.dropLast_concat]
    have hcond : ¬ ((CardGenerator.generate bin bytes g).1.length < 13 ∨
        19 < (CardGenerator.generate bin bytes g).1.length) := by
      rw [hL]
      omega
    have hmem : (CardGenerator.generate bin bytes g).1 ∈
        (CardGenerator.generate bin bytes g).2.issued :=
      List.mem_cons_self _ _
    refine ⟨hL, hglast, ?_⟩
    simp [CardGenerator.validate, if_neg hcond, hglast, hmem]
  · intro m g hlen hluhn hmem
    simp [CardGenerator.validate, hlen, hluhn, hmem]

/-- Claim C6 witness: generating with BIN "5" and an all-zero random stream
on an empty registry yields a valid issued number; the all-zero 16-digit
number (whose Luhn check digit is correctly 0) is rejected when never
issued. -/
theorem cardGenerator_luhn_spec_witness :
    (CardGenerator.generate [5] (List.replicate 14 0) ⟨[]⟩).1.length = 16 ∧
    CardGenerator.validate (CardGenerator.generate [5] (List.replicate 14 0) ⟨[]⟩).1
      (CardGenerator.generate [5] (List.replicate 14 0) ⟨[]⟩).2 = true ∧
    CardGenerator.validate (List.replicate 16 0) ⟨[]⟩ = false := by
  have hgen := cardGenerator_luhn_spec.1 [5] (List.replicate 14 0) ⟨[]⟩
    (by decide) (by decide) (by decide)
  have hrej := cardGenerator_luhn_spec.2 (List.replicate 16 0) ⟨[]⟩
    (by decide) (by decide) (by decide)
  exact ⟨hgen.1, hgen.2.2, hrej⟩

/-- Claim C7 counterexample: constructing a CreditCard (BIN "5") on an empty
registry with an all-zero mt19937 stream assigns the number `5 0…0`
(16 digits) while the registry stays empty — `Card("5", true)` resolves to
`Card(bool, bool)`, so `CardGenerator::generate` never runs — hence
`CardGenerator::validate` rejects the assigned number; likewise a DebitCard
(BIN "4") leaves the registry empty and its assigned number `4 0…0` is
rejected. -/
theorem card_constructor_registry_counterexample :
    CardGenerator.validate
      (CreditCard.constructNumber (List.replicate 15 0) ⟨[]⟩).1
      (CreditCard.constructNumber (List.replicate 15 0) ⟨[]⟩).2 = false ∧
    CardGenerator.validate
      (DebitCard.constructNumber (List.replicate 15 0) ⟨[]⟩).1
      (DebitCard.constructNumber (List.replicate 15 0) ⟨[]⟩).2 = false := by
  decide

/-- Claim C7 amended: neither card constructor invokes the Card Number
Generator. In `CreditCard::CreditCard(double, bool, shared_ptr)` the
base-initializer `Card("5", true)` resolves by overload resolution to
`Card(bool, bool)`, so the number finally assigned is the mt19937
`Card::generateCardNumber("5")`; a DebitCard assigns its own
`generateCardNumberWithPrefix("4")`. Both leave the issued-number registry
untouched, so unless the assigned number coincides with a previously
registered one, `CardGenerator::validate` rejects it. -/
theorem card_constructor_registry_amended :
    (∀ (mtDigits : List ℕ) (g : GenState),
      (CreditCard.constructNumber mtDigits g).1 =
        Card.generateCardNumber [5] mtDigits ∧
      (CreditCard.constructNumber mtDigits g).2 = g ∧
      ((CreditCard.constructNumber mtDigits g).1 ∉ g.issued →
        CardGenerator.validate (CreditCard.constructNumber mtDigits g).1
          (CreditCard.constructNumber mtDigits g).2 = false)) ∧
    (∀ (randBytes : List ℕ) (g : GenState),
      (DebitCard.constructNumber randBytes g).1 =
        DebitCard.generateCardNumberWithPrefix [4] randBytes ∧
      (DebitCard.constructNumber randBytes g).2 = g ∧
      ((DebitCard.constructNumber randBytes g).1 ∉ g.issued →
        CardGenerator.validate (DebitCard.constructNumber randBytes g).1 g =
          false)) := by
  constructor
  · intro mtDigits g
    refine ⟨rfl, rfl, ?_⟩
    intro hmem
    simp only [CreditCard.constructNumber] at hmem ⊢
    simp [CardGenerator.validate, hmem]
  · intro randBytes g
    refine ⟨rfl, rfl, ?_⟩
    intro hmem
    simp [CardGenerator.validate, hmem]

/-- Claim C7 amended witness: all-one random streams on an empty registry
instantiate the amended statement; both assigned numbers are rejected. -/
theorem card_constructor_registry_amended_witness :
    CardGenerator.validate
      (CreditCard.constructNumber (List.replicate 15 1) ⟨[]⟩).1
      (CreditCard.constructNumber (List.replicate 15 1) ⟨[]⟩).2 = false ∧
    CardGenerator.validate
      (DebitCard.constructNumber (List.replicate 15 1) ⟨[]⟩).1
      (DebitCard.constructNumber (List.replicate 15 1) ⟨[]⟩).2 = false := by
  refine ⟨(card_constructor_registry_amended.1 (List.replicate 15 1)
    ⟨[]⟩).2.2 (by decide), ?_⟩
  exact (card_constructor_registry_amended.2 (List.replicate 15 1) ⟨[]⟩).2.2
    (by decide)

/-- Claim C8 counterexample: a card with populated number and CVV whose
expiration was forced to the sentinel "00/00" by `markExpired()` still
passes `Card::validate` — the source rejects only ""/"NONE"/"None", not the
"00/00" and "000" placeholders — contradicting the claim that such a card
fails validation. -/
theorem card_validate_counterexample :
    Card.validate
      (Card.markExpired ⟨"4539578763621486", "12/27", "123", true, false⟩) =
      true := by
  decide

/-- Claim C8 amended: `Card::validate` returns true iff the card number,
expiration, and CVV are all non-empty and none equals its unset placeholder
(card number "NONE", expiration "NONE", CVV "None"); the sentinels "00/00"
and "000" are not rejected, so a card whose expiration was forced to "00/00"
by `markExpired()` still validates whenever its number and CVV are
populated. -/
theorem card_validate_amended (c : CardState) :
    (Card.validate c = true ↔
      (c.cardNumber ≠ "" ∧ c.cardNumber ≠ "NONE" ∧ c.expiration ≠ "" ∧
       c.expiration ≠ "NONE" ∧ c.cvv ≠ "" ∧ c.cvv ≠ "None")) ∧
    (c.cardNumber ≠ "" → c.cardNumber ≠ "NONE" → c.cvv ≠ "" → c.cvv ≠ "None" →
      Card.validate (Card.markExpired c) = true) := by
  constructor
  · unfold Card.validate
    split_ifs with h1 h2 h3 <;> simp_all <;> tauto
  · intro hn1 hn2 hc1 hc2
    simp [Card.validate, Card.markExpired, hn1, hn2, hc1, hc2]

/-- Claim C8 amended witness: a populated card marked expired still
validates. -/
theorem card_validate_amended_witness :
    Card.validate
      (Card.markExpired ⟨"4000000000000002", "01/30", "321", true, false⟩) =
      true :=
  (card_validate_amended ⟨"4000000000000002", "01/30", "321", true, false⟩).2
    (by decide) (by decide) (by decide) (by decide)

/-- Helper: the filtered account list keeps its length exactly when no owned
account carries the removed number. -/
theorem removeAccount_filter_length_eq (l : List BankAccountState) (n : Int) :
    ((l.filter fun a => a.accountNumber ≠ n).length = l.length) ↔
      ∀ a ∈ l, a.accountNumber ≠ n := by
  induction l with
  | nil => simp
  | cons x xs ih =>
    by_cases hx : x.accountNumber ≠ n
    · simp [hx, ih]
    · push_neg at hx
      have hle := List.length_filter_le
        (fun a => decide (a.accountNumber ≠ n)) xs
      simp only [List.filter_cons]
      rw [if_neg (by simp [hx])]
      constructor
      · intro h
        rw [List.length_cons] at h
        omega
      · intro h
        exact absurd hx (h x (List.mem_cons_self x xs))

/-- Helper: a self-map of a list that leaves it unchanged fixes every
member. -/
theorem list_map_eq_self_forall {α : Type} (f : α → α) :
    ∀ (l : List α), l.map f = l → ∀ x ∈ l, f x = x := by
  intro l
  induction l with
  | nil => simp
  | cons y ys ih =>
    intro h x hx
    simp only [List.map_cons, List.cons.injEq] at h
    rcases List.mem_cons.mp hx with rfl | hx2
    · exact h.1
    · exact ih h.2 x hx2

/-- Helper: `Customers::removeAccount` always leaves the owned list equal to
the filtered list, and reports `true` exactly when something matched. -/
theorem removeAccount_spec (c : CustomerState) (n : Int) :
    (Customers.removeAccount c n).2 =
      { c with accounts := c.accounts.filter fun a => a.accountNumber ≠ n } ∧
    ((Customers.removeAccount c n).1 = true ↔
      ∃ a ∈ c.accounts, a.accountNumber = n) := by
  unfold Customers.removeAccount
  by_cases h : (c.accounts.filter fun a => a.accountNumber ≠ n).length =
      c.accounts.length
  · have hall := (removeAccount_filter_length_eq c.accounts n).mp h
    have hfe : c.accounts.filter (fun a => a.accountNumber ≠ n) = c.accounts :=
      List.filter_eq_self.mpr (fun a ha => by simpa using hall a ha)
    rw [if_pos h]
    constructor
    · show c = { c with accounts := c.accounts.filter fun a => a.accountNumber ≠ n }
      rw [hfe]
    · exact iff_of_false (by simp)
        (by rintro ⟨a, ha, han⟩; exact hall a ha han)
  · rw [if_neg h]
    refine ⟨rfl, iff_of_true rfl ?_⟩
    by_contra hnone
    push_neg at hnone
    exact h ((removeAccount_filter_length_eq c.accounts n).mpr hnone)

/-- Claim C9: `Services::closeAccount` is not atomic on its second failure
path. When the account number is owned by at least one customer but absent
from the global registry, the call returns false, yet every matching entry
has been removed from every customer profile (the customer list is not
restored: it differs from the pre-call list), while the registry is
untouched. -/
theorem services_closeAccount_nonatomic (s : ServicesState) (n : Int)
    (hin : ∃ c ∈ s.customers, ∃ a ∈ c.accounts, a.accountNumber = n)
    (hreg : ∀ a ∈ s.allAccounts, a.accountNumber ≠ n) :
    (Services.closeAccount s n).1 = false ∧
    (Services.closeAccount s n).2.customers =
      s.customers.map (fun c =>
        { c with accounts := c.accounts.filter fun a => a.accountNumber ≠ n }) ∧
    (Services.closeAccount s n).2.allAccounts = s.allAccounts ∧
    (Services.closeAccount s n).2.customers ≠ s.customers := by
  obtain ⟨c0, hc0, hacct⟩ := hin
  have hunlinked : (s.customers.map fun c => Customers.removeAccount c n).any
      (fun r => r.1) = true := by
    rw [List.any_eq_true]
    exact ⟨Customers.removeAccount c0 n, List.mem_map_of_mem _ hc0,
      (removeAccount_spec c0 n).2.mpr hacct⟩
  have hfind : s.allAccounts.find? (fun a => a.accountNumber = n) = none :=
    List.find?_eq_none.mpr (fun a ha => by simpa using hreg a ha)
  have hcust : ((s.customers.map fun c => Customers.removeAccount c n).map
      fun r => r.2) =
      s.customers.map (fun c =>
        { c with accounts := c.accounts.filter fun a => a.accountNumber ≠ n }) := by
    rw [List.map_map]
    exact List.map_congr_left (fun c _ => (removeAccount_spec c n).1)
  have hne : s.customers.map (fun c =>
      { c with accounts := c.accounts.filter fun a => a.accountNumber ≠ n }) ≠
      s.customers := by
    intro heq
    have hc0eq := list_map_eq_self_forall _ s.customers heq c0 hc0
    obtain ⟨a, ha, han⟩ := hacct
    have hacc : c0.accounts.filter (fun a => a.accountNumber ≠ n) =
        c0.accounts := by
      have := congrArg CustomerState.accounts hc0eq
      simpa using this
    have hall := List.filter_eq_self.mp hacc
    have := hall a ha
    simp [han] at this
  refine ⟨?_, ?_, ?_, ?_⟩
  · simp [Services.closeAccount, hunlinked, hfind]
  · simp only [Services.closeAccount, hunlinked, Bool.not_true, hfind]
    simpa using hcust
  · simp [Services.closeAccount, hunlinked, hfind]
  · simp only [Services.closeAccount, hunlinked, Bool.not_true, hfind]
    simpa [hcust] using hne

/-- Claim C9 witness: one customer owning account 2000 and an empty global
registry — closing 2000 returns false while the customer has lost the
account. -/
theorem services_closeAccount_nonatomic_witness :
    (Services.closeAccount ⟨[⟨"c1", [⟨2000, 50, 0, "SAVINGS", true, []⟩]⟩], []⟩
      2000).1 = false ∧
    (Services.closeAccount ⟨[⟨"c1", [⟨2000, 50, 0, "SAVINGS", true, []⟩]⟩], []⟩
      2000).2.customers ≠
      [⟨"c1", [⟨2000, 50, 0, "SAVINGS", true, []⟩]⟩] := by
  have h := services_closeAccount_nonatomic
    ⟨[⟨"c1", [⟨2000, 50, 0, "SAVINGS", true, []⟩]⟩], []⟩ 2000
    ⟨⟨"c1", [⟨2000, 50, 0, "SAVINGS", true, []⟩]⟩, by simp,
      ⟨2000, 50, 0, "SAVINGS", true, []⟩, by simp, rfl⟩
    (by simp)
  exact ⟨h.1, h.2.2.2⟩

/-- Helper: `CheckingAccount::applyWithdraw` commutes with hiding the daily
withdrawal limit — the limit is never read or written by the operation. -/
theorem applyWithdraw_eraseDailyLimit (s : CheckingAccountState) (a : ℚ)
    (now : Int) :
    CheckingAccount.applyWithdraw (CheckingAccount.eraseDailyLimit s) a now =
      ((CheckingAccount.applyWithdraw s a now).1,
        CheckingAccount.eraseDailyLimit
          (CheckingAccount.applyWithdraw s a now).2) := by
  obtain ⟨b, odl, fee, waiv, prot, cnt, dl, biz, backup⟩ := s
  by_cases h0 : a ≤ 0
  · simp [CheckingAccount.applyWithdraw, CheckingAccount.eraseDailyLimit, h0]
  · by_cases h1 : b.balance + odl < a
    · cases prot
      · simp [CheckingAccount.applyWithdraw, CheckingAccount.eraseDailyLimit,
          h0, h1]
      · cases backup with
        | none =>
          simp [CheckingAccount.applyWithdraw, CheckingAccount.eraseDailyLimit,
            h0, h1]
        | some bk =>
          rcases hw : BankAccount.applyWithdraw bk (a - (b.balance + odl)) now
            with ⟨r, bk1⟩
          cases r with
          | error e =>
            simp [CheckingAccount.applyWithdraw,
              CheckingAccount.eraseDailyLimit, h0, h1, hw]
          | ok ok =>
            cases ok <;>
              simp [CheckingAccount.applyWithdraw,
                CheckingAccount.eraseDailyLimit, h0, h1, hw]
    · simp [CheckingAccount.applyWithdraw, CheckingAccount.eraseDailyLimit,
        h0, h1]

/-- Helper: `DebitCard::processPayment` commutes with hiding the daily
limits — neither the card's daily limit nor its daily spend is read or
written. -/
theorem processPayment_erasePayLimits (c : DebitCardPayState) (a : ℚ)
    (now : Int) :
    DebitCard.processPayment (DebitCard.erasePayLimits c) a now =
      ((DebitCard.processPayment c a now).1,
        DebitCard.erasePayLimits (DebitCard.processPayment c a now).2) := by
  obtain ⟨act, linked, dl, spend, ctl⟩ := c
  cases act
  · simp [DebitCard.processPayment, DebitCard.erasePayLimits]
  · cases linked with
    | none => simp [DebitCard.processPayment, DebitCard.erasePayLimits]
    | some acct =>
      by_cases hbal : acct.base.balance < a
      · simp [DebitCard.processPayment, DebitCard.erasePayLimits,
          CheckingAccount.eraseDailyLimit, hbal]
      · rcases hw : CheckingAccount.applyWithdraw acct a now with ⟨r, acct1⟩
        have hb : (CheckingAccount.eraseDailyLimit acct).base = acct.base := rfl
        simp [DebitCard.processPayment, DebitCard.erasePayLimits, hb, hbal, hw,
          applyWithdraw_eraseDailyLimit acct a now]

/-- Claim C10: the daily withdrawal limit is tracking-only at the withdrawal
interface. Two checking accounts differing only in the daily-limit field get
identical `applyWithdraw` results and balances; two debit cards differing
only in daily limit / daily spend (and their accounts' daily limits) get
identical `processPayment` results; `processPayment` never updates the
card's daily spend; and a single withdrawal exceeding the daily limit
succeeds whenever the balance/overdraft rules permit it. -/
theorem dailyLimit_untracked_spec :
    (∀ (s1 s2 : CheckingAccountState) (a : ℚ) (now : Int),
      CheckingAccount.eraseDailyLimit s1 = CheckingAccount.eraseDailyLimit s2 →
      (CheckingAccount.applyWithdraw s1 a now).1 =
        (CheckingAccount.applyWithdraw s2 a now).1 ∧
      CheckingAccount.eraseDailyLimit
          (CheckingAccount.applyWithdraw s1 a now).2 =
        CheckingAccount.eraseDailyLimit
          (CheckingAccount.applyWithdraw s2 a now).2) ∧
    (∀ (c1 c2 : DebitCardPayState) (a : ℚ) (now : Int),
      DebitCard.erasePayLimits c1 = DebitCard.erasePayLimits c2 →
      (DebitCard.processPayment c1 a now).1 =
        (DebitCard.processPayment c2 a now).1 ∧
      DebitCard.erasePayLimits (DebitCard.processPayment c1 a now).2 =
        DebitCard.erasePayLimits (DebitCard.processPayment c2 a now).2) ∧
    (∀ (c : DebitCardPayState) (a : ℚ) (now : Int),
      (DebitCard.processPayment c a now).2.dailySpendAmount =
        c.dailySpendAmount) ∧
    (∀ (s : CheckingAccountState) (a : ℚ) (now : Int),
      0 < a → s.dailyWithdrawalLimit < a →
      a ≤ s.base.balance + s.overdraftLimit →
      (CheckingAccount.applyWithdraw s a now).1 = Except.ok true) := by
  refine ⟨?_, ?_, ?_, ?_⟩
  · intro s1 s2 a now h
    have e1 := applyWithdraw_eraseDailyLimit s1 a now
    have e2 := applyWithdraw_eraseDailyLimit s2 a now
    rw [h] at e1
    have e := e1.symm.trans e2
    rw [Prod.ext_iff] at e
    exact e
  · intro c1 c2 a now h
    have e1 := processPayment_erasePayLimits c1 a now
    have e2 := processPayment_erasePayLimits c2 a now
    rw [h] at e1
    have e := e1.symm.trans e2
    rw [Prod.ext_iff] at e
    exact e
  · intro c a now
    obtain ⟨act, linked, dl, spend, ctl⟩ := c
    cases act
    · simp [DebitCard.processPayment]
    · cases linked with
      | none => simp [DebitCard.processPayment]
      | some acct =>
        by_cases hbal : acct.base.balance < a
        · simp [DebitCard.processPayment, hbal]
        · rcases hw : CheckingAccount.applyWithdraw acct a now with ⟨r, acct1⟩
          simp [DebitCard.processPayment, hbal, hw]
  · intro s a now ha _ hle
    have h0 : ¬ a ≤ 0 := not_le_of_lt ha
    have h1 : ¬ s.base.balance + s.overdraftLimit < a := not_lt_of_le hle
    simp [CheckingAccount.applyWithdraw, h0, h1]

/-- Claim C10 witness: two identical accounts with daily limits 500 and 9999
give the same outcome for a 600.00 withdrawal; the withdrawal exceeding the
500 daily limit succeeds on balance 1000; a debit-card payment leaves the
daily spend at its prior value 100. -/
theorem dailyLimit_untracked_spec_witness :
    (CheckingAccount.applyWithdraw
      ⟨⟨1000, 1000, 0, "None", false, []⟩, 0, 10, 1500, false, 0, 500, false,
        none⟩ 600 0).1 =
      (CheckingAccount.applyWithdraw
        ⟨⟨1000, 1000, 0, "None", false, []⟩, 0, 10, 1500, false, 0, 9999,
          false, none⟩ 600 0).1 ∧
    (CheckingAccount.applyWithdraw
      ⟨⟨1000, 1000, 0, "None", false, []⟩, 0, 10, 1500, false, 0, 500, false,
        none⟩ 600 0).1 = Except.ok true ∧
    (DebitCard.processPayment
      ⟨true, some ⟨⟨1000, 1000, 0, "None", false, []⟩, 0, 10, 1500, false, 0,
        500, false, none⟩, 500, 100, true⟩ 600 0).2.dailySpendAmount = 100 := by
  refine ⟨(dailyLimit_untracked_spec.1
    ⟨⟨1000, 1000, 0, "None", false, []⟩, 0, 10, 1500, false, 0, 500, false,
      none⟩
    ⟨⟨1000, 1000, 0, "None", false, []⟩, 0, 10, 1500, false, 0, 9999, false,
      none⟩ 600 0 rfl).1, ?_, ?_⟩
  · exact dailyLimit_untracked_spec.2.2.2
      ⟨⟨1000, 1000, 0, "None", false, []⟩, 0, 10, 1500, false, 0, 500, false,
        none⟩ 600 0 (by norm_num) (show (500:ℚ) < 600 by norm_num)
      (show (600:ℚ) ≤ 1000 + 0 by norm_num)
  · exact dailyLimit_untracked_spec.2.2.1
      ⟨true, some ⟨⟨1000, 1000, 0, "None", false, []⟩, 0, 10, 1500, false, 0,
        500, false, none⟩, 500, 100, true⟩ 600 0
